import Mathlib

/-!
Shallow embedding of the `account` app of the team-tesla-backend repository
(`src/account/models.py` and `src/account/views.py`).

Modelling conventions:
- Database tables are Lean lists of row structures; each row keeps the
  source model fields (auto timestamps included, as `Int` seconds).
- Django `Model.save()` is explicit state passing; `auto_now` fields are
  set from a `now : Int` parameter threaded through each handler.
- The password hasher, the token signer (`CustomAuthentication`, whose
  module is not part of src/) and the email transport are external
  collaborators: they enter as function parameters of the handlers.
- `Manager.objects.get(...)` is `getUnique`: zero matches raise
  `DoesNotExist`, two or more raise `MultipleObjectsReturned`; a handler
  that does not catch the exception returns it as `Except.error`.
- Request serializers live outside src/, so serializer validity is a
  boolean parameter of each handler; handlers follow views.py verbatim in
  both branches.
-/

namespace Account

/-- `account.models.CustomUser` (src/account/models.py lines 30-51). -/
structure CustomUser where
  id : Nat
  email : String
  password : String
  otp : Option Int
  first_name : String
  last_name : String
  business_name : Option String
  individual_url : Option String
  business : Option Bool
  individual : Option Bool
  email_verified : Bool
  accepted_terms : Bool
  is_active : Bool
  is_staff : Bool
  is_superuser : Bool
  created_at : Int
  updated_at : Int
deriving Repr, DecidableEq

/-- `account.models.Token` (src/account/models.py lines 54-59): one-to-one
access/refresh pair owned by a user. -/
structure Token where
  id : Nat
  user_id : Nat
  access : String
  refresh : String
  created_at : Int
  updated_at : Int
deriving Repr, DecidableEq

/-- `account.models.OTP` (src/account/models.py lines 62-66): one-to-one
pending OTP slot owned by a user, value nullable. -/
structure OTP where
  id : Nat
  user_id : Nat
  generated_otp : Option Int
  created_at : Int
  updated_at : Int
deriving Repr, DecidableEq

/-- The relational store the views operate on, with autoincrement counters. -/
structure DB where
  users : List CustomUser
  tokens : List Token
  otps : List OTP
  next_user_id : Nat
  next_token_id : Nat
deriving Repr, DecidableEq

/-- Errors raised by `Manager.objects.get`. -/
inductive GetErr where
  | doesNotExist
  | multipleReturned
deriving Repr, DecidableEq

/-- Django `objects.get(p)`: the unique row matching `p`, `DoesNotExist`
when no row matches, `MultipleObjectsReturned` when several do. -/
def getUnique (p : α → Bool) (xs : List α) : Except GetErr α :=
  match xs.filter p with
  | [] => .error .doesNotExist
  | [x] => .ok x
  | _ :: _ :: _ => .error .multipleReturned

/-- A JSON body of shape `\x7bstatus, message\x7d` plus the HTTP code. -/
structure JsonResp where
  code : Nat
  status : String
  message : String
deriving Repr, DecidableEq

/-- A `Set-Cookie` produced by `response.set_cookie`. -/
structure Cookie where
  name : String
  value : String
  secure : Bool
  samesite : String
  max_age : Nat
deriving Repr, DecidableEq

/-- Response of the sign-in and refresh-token endpoints: HTTP code, body
fields, and the optional refresh-token cookie. -/
structure ApiResp where
  code : Nat
  status : String
  message : Option String
  access_token : Option String
  cookie : Option Cookie
deriving Repr, DecidableEq

/-- `django.contrib.auth.base_user.BaseUserManager.normalize_email`:
lowercases the domain part of the address. -/
def normalize_email (email : String) : String :=
  let s := email.trim
  match s.splitOn "@" with
  | [] => email
  | [_] => email
  | parts => String.intercalate "@" parts.dropLast ++ "@" ++ (parts.getLastD "").toLower

/-- `AbstractBaseUser.set_password`: stores the hash of the raw password.
The hasher `h` is the external hashing primitive. -/
def set_password (h : String → String) (u : CustomUser) (raw : String) : CustomUser :=
  { u with password := h raw }

/-- `AbstractBaseUser.check_password`: does the raw password hash to the
stored value. -/
def check_password (h : String → String) (u : CustomUser) (raw : String) : Bool :=
  u.password == h raw

/-- `CustomUserManager.create_user` (src/account/models.py lines 9-18):
rejects an empty email, normalizes it, builds the model instance with the
field defaults of `CustomUser`, hashes the password via `set_password`,
and saves. -/
def create_user (h : String → String) (nextId : Nat) (now : Int)
    (email password first_name last_name : String) (accepted_terms : Bool) :
    Except String CustomUser :=
  if email = "" then
    .error "email must be available"
  else
    let email := normalize_email email
    let user : CustomUser :=
      { id := nextId, email := email, password := "", otp := none,
        first_name := first_name, last_name := last_name,
        business_name := none, individual_url := none,
        business := some false, individual := some false,
        email_verified := false, accepted_terms := accepted_terms,
        is_active := true, is_staff := false, is_superuser := false,
        created_at := now, updated_at := now }
    .ok (set_password h user password)

/-- `django.contrib.auth.authenticate` with the default model backend:
looks the user up by email, checks the password hash, and rejects
inactive users. -/
def authenticate (h : String → String) (users : List CustomUser)
    (email password : String) : Option CustomUser :=
  match users.find? (fun u => u.email == email) with
  | none => none
  | some u => if check_password h u password && u.is_active then some u else none

/-- Modelled from the spec: `SignUpSerializer` is not part of src/. Per
spec section 4.2, a valid payload carries email, password, profile fields
and terms acceptance, and `serializer.save()` creates the user through the
manager, i.e. `create_user`. `SignUpView.post` (src/account/views.py lines
46-57) raises a validation error on an invalid payload (HTTP 400) and
otherwise saves and returns HTTP 201 with status and message. -/
def signUpPost (h : String → String) (now : Int) (db : DB) (valid : Bool)
    (email password first_name last_name : String) (accepted_terms : Bool) :
    Except String JsonResp × DB :=
  if !valid then
    (.ok { code := 400, status := "error", message := "" }, db)
  else
    match create_user h db.next_user_id now email password first_name last_name accepted_terms with
    | .error e => (.error e, db)
    | .ok user =>
      let db := { db with users := db.users ++ [user], next_user_id := db.next_user_id + 1 }
      (.ok { code := 201, status := "success", message := "Account created successfully." }, db)

/-- `SignInView.post` (src/account/views.py lines 65-104). The token
signer enters as `get_access_token` (applied to the `user_id` claim) and
`get_refresh_token` (the fresh opaque refresh value). -/
def signInPost (h : String → String) (get_access_token : Nat → String)
    (get_refresh_token : String) (now : Int) (db : DB)
    (email password : String) : ApiResp × DB :=
  match authenticate h db.users email password with
  | none =>
    ({ code := 400, status := "error", message := some "Invalid account credentials",
       access_token := none, cookie := none }, db)
  | some user =>
    let access := get_access_token user.id
    let refresh := get_refresh_token
    -- check if user have prev tokens & then delete it
    let tokens := db.tokens.filter (fun t => t.user_id != user.id)
    -- create tokens for user
    let newTok : Token :=
      { id := db.next_token_id, user_id := user.id, access := access,
        refresh := refresh, created_at := now, updated_at := now }
    let db := { db with tokens := tokens ++ [newTok], next_token_id := db.next_token_id + 1 }
    ({ code := 200, status := "success", message := none,
       access_token := some access,
       cookie := some { name := "refresh_token", value := refresh, secure := true,
                        samesite := "None", max_age := 86400 } }, db)

/-- `ChangePasswordView.post` (src/account/views.py lines 159-186): checks
the old password against the stored hash; on match stores the hash of the
new password, otherwise HTTP 400 leaving the user untouched. Serializer
validity is a parameter; `notify_user` is a fire-and-forget external sink
with no effect on the store. -/
def changePasswordPost (h : String → String) (user : CustomUser) (now : Int)
    (valid : Bool) (old_password new_password : String) : JsonResp × CustomUser :=
  if valid then
    if check_password h user old_password then
      let user := { set_password h user new_password with updated_at := now }
      ({ code := 200, status := "success", message := "Password changed successfully." }, user)
    else
      ({ code := 400, status := "error", message := "Incorrect old password." }, user)
  else
    ({ code := 400, status := "error", message := "" }, user)

/-- `ResendOTPView.post` (src/account/views.py lines 193-237): a fresh OTP
value `otp` comes from `generate_otp()` (in utils, external); the OTP row
is fetched by the owning user's email, the new value saved, and only then
the email dispatched — `send_ok` tells whether `send_email` raised. -/
def resendOTPPost (otp : Int) (now : Int) (db : DB) (valid : Bool)
    (email : String) (send_ok : Bool) : Except String JsonResp × DB :=
  if valid then
    match getUnique (fun o => db.users.any (fun u => u.id == o.user_id && u.email == email)) db.otps with
    | .error .doesNotExist =>
      (.ok { code := 404, status := "error", message := "Email not associated to user or otp" }, db)
    | .error .multipleReturned => (.error "MultipleObjectsReturned", db)
    | .ok user_otp =>
      let user_otp := { user_otp with generated_otp := some otp, updated_at := now }
      let db := { db with otps := db.otps.map (fun o => if o.id == user_otp.id then user_otp else o) }
      if send_ok then
        (.ok { code := 200, status := "success", message := "OTP sent successful" }, db)
      else
        (.ok { code := 500, status := "error", message := "Email sending error" }, db)
  else
    (.ok { code := 400, status := "error", message := "" }, db)

/-- The first write of OTP validation (src/account/views.py lines 266-268),
committed on its own, OUTSIDE any transaction: clears `generated_otp` and
saves the row. -/
def otpClearSave (db : DB) (now : Int) (row : OTP) : DB :=
  let row := { row with generated_otp := none, updated_at := now }
  { db with otps := db.otps.map (fun o => if o.id == row.id then row else o) }

/-- The second write of OTP validation (src/account/views.py lines
270-272), the only one wrapped in `transaction.atomic()`: sets
`email_verified` on the owning user and saves. -/
def emailVerifiedSave (db : DB) (now : Int) (uid : Nat) : DB :=
  { db with users := db.users.map (fun u =>
      if u.id == uid then { u with email_verified := true, updated_at := now } else u) }

/-- `timezone.timedelta(minutes=5)` in seconds. -/
def exp_time : Int := 5 * 60

/-- `ValidateOTPView.post` (src/account/views.py lines 244-280): global
lookup of the OTP row by value, 5-minute expiry window against
`updated_at`, then the two writes `otpClearSave` and `emailVerifiedSave`
in sequence. -/
def validateOTPPost (now : Int) (db : DB) (valid : Bool) (otp : Int) :
    Except String JsonResp × DB :=
  if valid then
    match getUnique (fun o => o.generated_otp == some otp) db.otps with
    | .error .doesNotExist =>
      (.ok { code := 404, status := "error", message := "Invalid OTP" }, db)
    | .error .multipleReturned => (.error "MultipleObjectsReturned", db)
    | .ok user_otp =>
      let otp_time := now - user_otp.updated_at
      if otp_time > exp_time then
        (.ok { code := 400, status := "error", message := "Expired OTP" }, db)
      else
        let db := if user_otp.generated_otp == some otp then otpClearSave db now user_otp else db
        let db := emailVerifiedSave db now user_otp.user_id
        (.ok { code := 200, status := "success", message := "OTP validated successful" }, db)
  else
    (.ok { code := 400, status := "error", message := "" }, db)

/-- The store as left by `ValidateOTPView.post` when the process fails
right after the `user_otp.save()` of line 268 commits and before the
`transaction.atomic()` block of lines 270-272 runs: the OTP-clear write is
already durable (it ran outside the transaction), the `email_verified`
write never happens. -/
def validateOTPCrashBetweenWrites (now : Int) (db : DB) (valid : Bool) (otp : Int) : DB :=
  if valid then
    match getUnique (fun o => o.generated_otp == some otp) db.otps with
    | .error _ => db
    | .ok user_otp =>
      let otp_time := now - user_otp.updated_at
      if otp_time > exp_time then db
      else if user_otp.generated_otp == some otp then otpClearSave db now user_otp else db
  else db

/-- `RefreshTokenView.get` (src/account/views.py lines 288-324): fetches
the Token row whose refresh value equals the `refresh_token` cookie,
verifies the cookie token, mints a new pair — passing the Token row id
`active_token.id` as the `user_id` claim — overwrites the row and resets
the cookie. In the `.ok` branch the matched row satisfies
`some tok.refresh = cookie`, so `verify` is applied to `tok.refresh`. -/
def refreshTokenGet (get_access_token : Nat → String) (get_refresh_token : String)
    (verify_token : String → Bool) (now : Int) (db : DB)
    (refresh_token_cookie : Option String) : Except String ApiResp × DB :=
  match getUnique (fun t => some t.refresh == refresh_token_cookie) db.tokens with
  | .error .doesNotExist =>
    (.ok { code := 400, status := "error", message := some "Refresh token not found.",
           access_token := none, cookie := none }, db)
  | .error .multipleReturned => (.error "MultipleObjectsReturned", db)
  | .ok active_token =>
    if ! verify_token active_token.refresh then
      (.ok { code := 400, status := "error", message := some "Refresh token invalid or expired.",
             access_token := none, cookie := none }, db)
    else
      let access := get_access_token active_token.id
      let refresh := get_refresh_token
      let tok := { active_token with access := access, refresh := refresh, updated_at := now }
      let db := { db with tokens := db.tokens.map (fun t => if t.id == tok.id then tok else t) }
      (.ok { code := 200, status := "success", message := none,
             access_token := some access,
             cookie := some { name := "refresh_token", value := refresh, secure := true,
                              samesite := "None", max_age := 86400 } }, db)

/-! Concrete fixtures used to instantiate theorems with hypotheses. -/

/-- A concrete (injective-looking) stand-in for the external password
hasher: appends a marker, so no hash equals its plaintext. -/
def hashX (s : String) : String := s ++ "#h"

/-- A concrete signed-access-token mint for instantiations. -/
def gatX (n : Nat) : String := "acc" ++ toString n

/-- A concrete user row. -/
def userA : CustomUser :=
  { id := 1, email := "a@b.com", password := hashX "pw", otp := none,
    first_name := "A", last_name := "B", business_name := none,
    individual_url := none, business := some false, individual := some false,
    email_verified := false, accepted_terms := true, is_active := true,
    is_staff := false, is_superuser := false, created_at := 0, updated_at := 0 }

/-- A concrete pending OTP row owned by `userA`, last updated at time 0. -/
def otpRowA : OTP :=
  { id := 1, user_id := 1, generated_otp := some 1234, created_at := 0, updated_at := 0 }

/-- A concrete token row owned by `userA`; its row id 7 differs from the
owner id 1. -/
def tokRowA : Token :=
  { id := 7, user_id := 1, access := "acc0", refresh := "ref0",
    created_at := 0, updated_at := 0 }

/-- A concrete store holding `userA`, `tokRowA` and `otpRowA`. -/
def dbA : DB :=
  { users := [userA], tokens := [tokRowA], otps := [otpRowA],
    next_user_id := 2, next_token_id := 8 }

/-! Helper lemmas shared by the claim theorems. -/

/-- A row returned by `getUnique` is a member of the table and satisfies
the lookup predicate. -/
theorem getUnique_ok_mem {p : α → Bool} {xs : List α} {x : α}
    (h : getUnique p xs = .ok x) : x ∈ xs ∧ p x = true := by
  unfold getUnique at h
  cases hf : xs.filter p with
  | nil => rw [hf] at h; exact absurd h (by simp)
  | cons a as =>
    cases as with
    | nil =>
      rw [hf] at h
      simp only [Except.ok.injEq] at h
      subst h
      have ha : a ∈ xs.filter p := by rw [hf]; exact List.mem_singleton_self a
      exact ⟨(List.mem_filter.mp ha).1, (List.mem_filter.mp ha).2⟩
    | cons b bs => rw [hf] at h; exact absurd h (by simp)

/-- If no row satisfies the predicate, `getUnique` raises `DoesNotExist`. -/
theorem getUnique_none {p : α → Bool} {xs : List α}
    (h : ∀ a ∈ xs, p a = false) : getUnique p xs = .error .doesNotExist := by
  unfold getUnique
  rw [List.filter_eq_nil_iff.mpr (fun a ha => by simp [h a ha])]

/-- Deleting the rows of a user and then selecting that user's rows yields
nothing. -/
theorem filter_deleted_user_tokens (xs : List Token) (uid : Nat) :
    (xs.filter (fun t => t.user_id != uid)).filter (fun t => t.user_id == uid) = [] := by
  induction xs with
  | nil => rfl
  | cons x xs ih =>
    by_cases hx : x.user_id = uid
    · simp [List.filter_cons, hx, ih]
    · simp [List.filter_cons, hx, ih]

/-! Claim theorems. -/

/-- Claim C3: for every sign-in request with correct credentials, after
the request completes exactly one Token row exists for that user, holding
the freshly issued access and refresh values; any prior rows are gone. -/
theorem signin_success_single_token_row
    (h : String → String) (get_access_token : Nat → String) (get_refresh_token : String)
    (now : Int) (db : DB) (email password : String) (u : CustomUser)
    (hauth : authenticate h db.users email password = some u) :
    ((signInPost h get_access_token get_refresh_token now db email password).2).tokens.filter
        (fun t => t.user_id == u.id) =
      [{ id := db.next_token_id, user_id := u.id, access := get_access_token u.id,
         refresh := get_refresh_token, created_at := now, updated_at := now }] := by
  simp [signInPost, hauth, List.filter_append, filter_deleted_user_tokens]

/-- Witness for C3 at a concrete store: signing in as `userA` with the
right password leaves exactly the fresh pair as the user's token rows. -/
theorem signin_success_single_token_row_witness :
    ((signInPost hashX gatX "ref1" 5 dbA "a@b.com" "pw").2).tokens.filter
        (fun t => t.user_id == userA.id) =
      [{ id := dbA.next_token_id, user_id := userA.id, access := gatX userA.id,
         refresh := "ref1", created_at := 5, updated_at := 5 }] :=
  signin_success_single_token_row hashX gatX "ref1" 5 dbA "a@b.com" "pw" userA (by decide)

/-- Claim C5: a well-formed sign-in whose credentials do not authenticate
gets HTTP 400 with the generic message, and the store — in particular the
Token table — is untouched. -/
theorem signin_bad_credentials_400_no_change
    (h : String → String) (get_access_token : Nat → String) (get_refresh_token : String)
    (now : Int) (db : DB) (email password : String)
    (hauth : authenticate h db.users email password = none) :
    (signInPost h get_access_token get_refresh_token now db email password).1 =
      { code := 400, status := "error", message := some "Invalid account credentials",
        access_token := none, cookie := none } ∧
    (signInPost h get_access_token get_refresh_token now db email password).2 = db := by
  simp [signInPost, hauth]

/-- Witness for C5: a wrong password against the concrete store. -/
theorem signin_bad_credentials_400_no_change_witness :
    (signInPost hashX gatX "ref1" 5 dbA "a@b.com" "wrong").1 =
      { code := 400, status := "error", message := some "Invalid account credentials",
        access_token := none, cookie := none } ∧
    (signInPost hashX gatX "ref1" 5 dbA "a@b.com" "wrong").2 = dbA :=
  signin_bad_credentials_400_no_change hashX gatX "ref1" 5 dbA "a@b.com" "wrong" (by decide)

/-- Claim C6: a successful sign-in returns the access token in the body
and sets the refresh token as a cookie named refresh_token with Secure,
SameSite None and Max-Age 86400. -/
theorem signin_success_body_and_cookie
    (h : String → String) (get_access_token : Nat → String) (get_refresh_token : String)
    (now : Int) (db : DB) (email password : String) (u : CustomUser)
    (hauth : authenticate h db.users email password = some u) :
    (signInPost h get_access_token get_refresh_token now db email password).1.access_token =
      some (get_access_token u.id) ∧
    (signInPost h get_access_token get_refresh_token now db email password).1.code = 200 ∧
    (signInPost h get_access_token get_refresh_token now db email password).1.cookie =
      some { name := "refresh_token", value := get_refresh_token, secure := true,
             samesite := "None", max_age := 86400 } := by
  simp [signInPost, hauth]

/-- Witness for C6 at the concrete store. -/
theorem signin_success_body_and_cookie_witness :
    (signInPost hashX gatX "ref1" 5 dbA "a@b.com" "pw").1.access_token =
      some (gatX userA.id) ∧
    (signInPost hashX gatX "ref1" 5 dbA "a@b.com" "pw").1.code = 200 ∧
    (signInPost hashX gatX "ref1" 5 dbA "a@b.com" "pw").1.cookie =
      some { name := "refresh_token", value := "ref1", secure := true,
             samesite := "None", max_age := 86400 } :=
  signin_success_body_and_cookie hashX gatX "ref1" 5 dbA "a@b.com" "pw" userA (by decide)

/-- Claim C2: a refresh request that passes the Token-row lookup and the
token verification mints the new access token with the Token row's own id
as the user_id claim — `get_access_token` is applied to `tok.id`, not to
the owner id `tok.user_id`. -/
theorem refresh_mints_with_token_row_id
    (get_access_token : Nat → String) (get_refresh_token : String)
    (verify_token : String → Bool) (now : Int) (db : DB)
    (refresh_token_cookie : Option String) (tok : Token)
    (hget : getUnique (fun t => some t.refresh == refresh_token_cookie) db.tokens = .ok tok)
    (hver : verify_token tok.refresh = true) :
    ∃ resp, (refreshTokenGet get_access_token get_refresh_token verify_token now db
        refresh_token_cookie).1 = .ok resp ∧
      resp.access_token = some (get_access_token tok.id) := by
  simp [refreshTokenGet, hget, hver]

/-- Witness for C2: on the concrete store the row has id 7 and owner id 1,
and the minted access token embeds the row id 7. -/
theorem refresh_mints_with_token_row_id_witness :
    ∃ resp, (refreshTokenGet gatX "ref1" (fun _ => true) 5 dbA (some "ref0")).1 = .ok resp ∧
      resp.access_token = some (gatX tokRowA.id) :=
  refresh_mints_with_token_row_id gatX "ref1" (fun _ => true) 5 dbA (some "ref0") tokRowA
    rfl rfl

/-- Claim C4: when a matching OTP record exists, validation succeeds
exactly when `now - updated_at` is at most the 5-minute window; a record
older than the window gets HTTP 400 with message Expired OTP and no state
change. -/
theorem validate_otp_expiry_window
    (now : Int) (db : DB) (otp : Int) (row : OTP)
    (hget : getUnique (fun o => o.generated_otp == some otp) db.otps = .ok row) :
    (now - row.updated_at > exp_time →
      (validateOTPPost now db true otp).1 =
        .ok { code := 400, status := "error", message := "Expired OTP" } ∧
      (validateOTPPost now db true otp).2 = db) ∧
    (now - row.updated_at ≤ exp_time →
      ∃ r, (validateOTPPost now db true otp).1 = .ok r ∧ r.code = 200) := by
  constructor
  · intro hgt
    simp [validateOTPPost, hget, hgt]
  · intro hle
    simp [validateOTPPost, hget, not_lt.mpr hle]

/-- Witness for C4: on the concrete store (record updated at 0) a request
at 60 seconds succeeds and one at 400 seconds is expired. -/
theorem validate_otp_expiry_window_witness :
    ((400 : Int) - otpRowA.updated_at > exp_time →
      (validateOTPPost 400 dbA true 1234).1 =
        .ok { code := 400, status := "error", message := "Expired OTP" } ∧
      (validateOTPPost 400 dbA true 1234).2 = dbA) ∧
    ((400 : Int) - otpRowA.updated_at ≤ exp_time →
      ∃ r, (validateOTPPost 400 dbA true 1234).1 = .ok r ∧ r.code = 200) :=
  validate_otp_expiry_window 400 dbA 1234 otpRowA rfl

/-- Claim C8: a validate-OTP request whose value matches no OTP record at
all — the lookup ranges over every record, whoever owns it — returns HTTP
404 with status error and message Invalid OTP, leaving the store as is. -/
theorem validate_otp_unknown_404
    (now : Int) (db : DB) (otp : Int)
    (hnone : ∀ o ∈ db.otps, o.generated_otp ≠ some otp) :
    (validateOTPPost now db true otp).1 =
      .ok { code := 404, status := "error", message := "Invalid OTP" } ∧
    (validateOTPPost now db true otp).2 = db := by
  have hget : getUnique (fun o => o.generated_otp == some otp) db.otps = .error .doesNotExist :=
    getUnique_none (fun o ho => by simpa using hnone o ho)
  simp [validateOTPPost, hget]

/-- Witness for C8: the value 9999 is in no record of the concrete store. -/
theorem validate_otp_unknown_404_witness :
    (validateOTPPost 60 dbA true 9999).1 =
      .ok { code := 404, status := "error", message := "Invalid OTP" } ∧
    (validateOTPPost 60 dbA true 9999).2 = dbA :=
  validate_otp_unknown_404 60 dbA 9999 (by decide)

/-- Claim C7: a change-password request by an authenticated user whose old
password does not match the stored hash returns HTTP 400 and leaves the
user row — in particular the stored hash — unchanged. -/
theorem change_password_wrong_old_400_unchanged
    (h : String → String) (user : CustomUser) (now : Int)
    (old_password new_password : String)
    (hmismatch : check_password h user old_password = false) :
    (changePasswordPost h user now true old_password new_password).1 =
      { code := 400, status := "error", message := "Incorrect old password." } ∧
    (changePasswordPost h user now true old_password new_password).2 = user := by
  simp [changePasswordPost, hmismatch]

/-- Witness for C7: a wrong old password against the concrete user. -/
theorem change_password_wrong_old_400_unchanged_witness :
    (changePasswordPost hashX userA 5 true "bad" "newpw").1 =
      { code := 400, status := "error", message := "Incorrect old password." } ∧
    (changePasswordPost hashX userA 5 true "bad" "newpw").2 = userA :=
  change_password_wrong_old_400_unchanged hashX userA 5 "bad" "newpw" (by decide)

/-- Claim C9: a valid sign-up payload creates a user with
`email_verified = false` whose stored password is the hash and never the
plaintext, and the response is HTTP 201. The hasher is assumed not to fix
the plaintext (it is an external salted hashing primitive). -/
theorem signup_creates_unverified_hashed_user
    (h : String → String) (now : Int) (db : DB)
    (email password first_name last_name : String) (accepted_terms : Bool)
    (hemail : email ≠ "") (hhash : h password ≠ password) :
    ∃ u, (signUpPost h now db true email password first_name last_name accepted_terms).1 =
        .ok { code := 201, status := "success", message := "Account created successfully." } ∧
      (signUpPost h now db true email password first_name last_name accepted_terms).2.users =
        db.users ++ [u] ∧
      u.email_verified = false ∧ u.password = h password ∧ u.password ≠ password := by
  have hcu : create_user h db.next_user_id now email password first_name last_name accepted_terms =
      .ok (set_password h
        { id := db.next_user_id, email := normalize_email email, password := "", otp := none,
          first_name := first_name, last_name := last_name,
          business_name := none, individual_url := none,
          business := some false, individual := some false,
          email_verified := false, accepted_terms := accepted_terms,
          is_active := true, is_staff := false, is_superuser := false,
          created_at := now, updated_at := now } password) := by
    unfold create_user
    rw [if_neg hemail]
  exact ⟨set_password h
      { id := db.next_user_id, email := normalize_email email, password := "", otp := none,
        first_name := first_name, last_name := last_name,
        business_name := none, individual_url := none,
        business := some false, individual := some false,
        email_verified := false, accepted_terms := accepted_terms,
        is_active := true, is_staff := false, is_superuser := false,
        created_at := now, updated_at := now } password,
    by simp [signUpPost, hcu], by simp [signUpPost, hcu], rfl, rfl, hhash⟩

/-- Witness for C9: a concrete valid payload against the concrete store,
with the concrete hasher (which never returns its input). -/
theorem signup_creates_unverified_hashed_user_witness :
    ∃ u, (signUpPost hashX 5 dbA true "c@d.com" "pw2" "C" "D" true).1 =
        .ok { code := 201, status := "success", message := "Account created successfully." } ∧
      (signUpPost hashX 5 dbA true "c@d.com" "pw2" "C" "D" true).2.users =
        dbA.users ++ [u] ∧
      u.email_verified = false ∧ u.password = hashX "pw2" ∧ u.password ≠ "pw2" :=
  signup_creates_unverified_hashed_user hashX 5 dbA "c@d.com" "pw2" "C" "D" true
    (by decide) (by decide)

/-- Claim C10: when the user's OTP row exists, resend-OTP saves the new
value before attempting the email dispatch; so on dispatch failure the
response is HTTP 500 while the stored `generated_otp` already equals the
new OTP, and the resulting store is the same one a successful dispatch
would leave. -/
theorem resend_otp_saves_before_dispatch
    (otp now : Int) (db : DB) (email : String) (row : OTP)
    (hget : getUnique (fun o => db.users.any (fun u => u.id == o.user_id && u.email == email))
        db.otps = .ok row) :
    (resendOTPPost otp now db true email false).1 =
      .ok { code := 500, status := "error", message := "Email sending error" } ∧
    ({ row with generated_otp := some otp, updated_at := now } : OTP) ∈
      (resendOTPPost otp now db true email false).2.otps ∧
    (∀ o ∈ (resendOTPPost otp now db true email false).2.otps,
      o.id = row.id → o.generated_otp = some otp) ∧
    (resendOTPPost otp now db true email false).2 =
      (resendOTPPost otp now db true email true).2 := by
  have hmem := (getUnique_ok_mem hget).1
  refine ⟨by simp [resendOTPPost, hget], ?_, ?_, by simp [resendOTPPost, hget]⟩
  · simp only [resendOTPPost, hget, Bool.not_true, if_true]
    exact List.mem_map.mpr ⟨row, hmem, by simp⟩
  · intro o ho hid
    simp only [resendOTPPost, hget, Bool.not_true, if_true] at ho
    obtain ⟨o0, _, heq⟩ := List.mem_map.mp ho
    by_cases h0 : o0.id = row.id
    · rw [← heq]
      simp [h0]
    · rw [← heq] at hid
      simp [h0] at hid

/-- Witness for C10 at the concrete store: resending to `userA`'s email
with a failing dispatch returns 500 with the new value 5678 already
saved. -/
theorem resend_otp_saves_before_dispatch_witness :
    (resendOTPPost 5678 9 dbA true "a@b.com" false).1 =
      .ok { code := 500, status := "error", message := "Email sending error" } ∧
    ({ otpRowA with generated_otp := some 5678, updated_at := 9 } : OTP) ∈
      (resendOTPPost 5678 9 dbA true "a@b.com" false).2.otps ∧
    (∀ o ∈ (resendOTPPost 5678 9 dbA true "a@b.com" false).2.otps,
      o.id = otpRowA.id → o.generated_otp = some 5678) ∧
    (resendOTPPost 5678 9 dbA true "a@b.com" false).2 =
      (resendOTPPost 5678 9 dbA true "a@b.com" true).2 :=
  resend_otp_saves_before_dispatch 5678 9 dbA "a@b.com" otpRowA rfl

/-- Claim C1 is refuted by the code: in `ValidateOTPView.post` the
OTP-clear save (views.py line 268) commits OUTSIDE the
`transaction.atomic()` block, which wraps only the `email_verified` write
(lines 270-272). A failure between the two writes leaves the store with
the OTP cleared while the user is still unverified — one write took
effect, not both and not neither. Concretely: the store `dbA` starts with
`generated_otp = some 1234` and `email_verified = false`; after a crash
between the writes during a successful validation of 1234 at time 60, the
OTP value is cleared and `email_verified` is still false. -/
theorem validate_otp_mid_failure_not_atomic :
    dbA.otps.map OTP.generated_otp = [some 1234] ∧
    dbA.users.map CustomUser.email_verified = [false] ∧
    (validateOTPCrashBetweenWrites 60 dbA true 1234).otps.map OTP.generated_otp = [none] ∧
    (validateOTPCrashBetweenWrites 60 dbA true 1234).users.map CustomUser.email_verified =
      [false] := by
  decide

end Account
